import Mathlib

/-!
Verification of the uosql-server client library (`src/src/lib.rs`).

The client drives a packet protocol over a TCP stream: a handshake
(`Greet`/`Greeting`, then `Login`, then `AccGranted`/`AccDenied`) followed by
command/response cycles (`ping`, `quit`, `execute`).  We embed the client
shallowly: the TCP stream is a list of typed wire items, each carrying the
byte size its bincode encoding would occupy; the bincode codec is modelled by
per-type decoders that check the item's size against the requested
`SizeLimit`, and by an abstract encoding-size function `encSize` threaded
through the client operations (the codec itself is an external collaborator).
Stateful Rust functions become explicit state passing on the stream / socket
value.
-/

namespace Uosql

/-- Modelled from the spec: the closed packet-tag set of `server::net::types`
(not under `src/`): `Greet, Login, Command, Ok, Error, Response, AccGranted,
AccDenied`. -/
inductive PkgType where
  | Greet
  | Login
  | Command
  | Ok
  | Error
  | Response
  | AccGranted
  | AccDenied
deriving DecidableEq, Repr

/-- Modelled from the spec: the `Greeting` payload
`{ protocol_version: u8, message: text }` of `server::net::types`. -/
structure Greeting where
  protocol_version : Nat
  message : String
deriving DecidableEq, Repr

/-- Modelled from the spec: the `Login` payload
`{ username: text, password: text }` of `server::net::types`. -/
structure LoginData where
  username : String
  password : String
deriving DecidableEq, Repr

/-- Modelled from the spec: the `Command` variant `Ping | Quit | Query(text)`
of `server::net::types`. -/
inductive Command where
  | Ping
  | Quit
  | Query (q : String)
deriving DecidableEq, Repr

/-- Modelled from the spec: the `ClientErrMsg` payload `{ msg: text }`
carried by the `Error` tag (`server::net::types`, not under `src/`). -/
structure ClientErrMsg where
  msg : String
deriving DecidableEq, Repr

/-- Modelled from the spec: `server::storage::ResultSet`, a row-oriented
result payload (external wire format, not under `src/`). -/
structure ResultSet where
  rows : List (List String)
deriving DecidableEq, Repr

/-- Modelled from the spec: the client-side post-processed representation of
a `ResultSet` (not under `src/`). -/
structure DataSet where
  rows : List (List String)
deriving DecidableEq, Repr

/-- A typed value as it travels on the wire. -/
inductive WireValue where
  | pkg (t : PkgType)
  | greeting (g : Greeting)
  | login (l : LoginData)
  | command (c : Command)
  | errMsg (e : ClientErrMsg)
  | resultSet (r : ResultSet)
deriving DecidableEq, Repr

/-- One encoded value on the byte stream: the value together with the number
of bytes its bincode encoding occupies. -/
structure WireItem where
  val : WireValue
  size : Nat
deriving DecidableEq, Repr

/-- `bincode::SizeLimit`: either a hard byte ceiling or unbounded. -/
inductive SizeLimit where
  | Bounded (n : Nat)
  | Infinite
deriving DecidableEq, Repr

/-- Whether a payload of `sz` bytes is accepted by the size limit. -/
def SizeLimit.fits : SizeLimit → Nat → Bool
  | .Bounded n, sz => sz ≤ n
  | .Infinite, _ => true

/-- `decode_from::<PkgType>`: reads one tag off the stream; fails if the
stream is empty, the next item is not a tag, or its size exceeds the limit. -/
def decodePkg : SizeLimit → List WireItem → Option (PkgType × List WireItem)
  | lim, ⟨WireValue.pkg t, sz⟩ :: rest =>
    if lim.fits sz then some (t, rest) else none
  | _, _ => none

/-- `decode_from::<Greeting>`. -/
def decodeGreeting : SizeLimit → List WireItem →
    Option (Greeting × List WireItem)
  | lim, ⟨WireValue.greeting g, sz⟩ :: rest =>
    if lim.fits sz then some (g, rest) else none
  | _, _ => none

/-- `decode_from::<ClientErrMsg>`. -/
def decodeErrMsg : SizeLimit → List WireItem →
    Option (ClientErrMsg × List WireItem)
  | lim, ⟨WireValue.errMsg e, sz⟩ :: rest =>
    if lim.fits sz then some (e, rest) else none
  | _, _ => none

/-- `decode_from::<ResultSet>`. -/
def decodeResultSet : SizeLimit → List WireItem →
    Option (ResultSet × List WireItem)
  | lim, ⟨WireValue.resultSet r, sz⟩ :: rest =>
    if lim.fits sz then some (r, rest) else none
  | _, _ => none

/-- The client's unified error type (`Error` in `src/src/lib.rs`). -/
inductive Error where
  | AddrParse
  | Io
  | UnexpectedPkg
  | Encode
  | Decode
  | Auth
  | Server (e : ClientErrMsg)
deriving DecidableEq, Repr

/-- `std::error::Error::description` for the client error type
(`src/src/lib.rs` lines 39-51). -/
def Error.description : Error → String
  | .AddrParse => "wrong IPv4 address format"
  | .Io => "IO error occured"
  | .UnexpectedPkg => "received unexpected package"
  | .Encode => "could not encode/ send package"
  | .Decode => "could not decode/ receive package"
  | .Auth => "could not authenticate user"
  | .Server e => e.msg

/-- `receive` (`src/src/lib.rs` lines 234-256): read one tag (bounded 1024).
If it is `Error`, decode a `ClientErrMsg` (unbounded) and fail with
`Error::Server`.  Otherwise, if it differs from the expected tag, drain the
payload the received tag implies (`Response` → `ResultSet`, `Greet` →
`Greeting`, both unbounded; anything else → none) and fail with
`Error::UnexpectedPkg`.  Returns the result together with the stream as left
after the call. -/
def receive (s : List WireItem) (cmd : PkgType) :
    Except Error Unit × List WireItem :=
  match decodePkg (SizeLimit.Bounded 1024) s with
  | none => (Except.error Error.Decode, s)
  | some (status, s1) =>
    if status = PkgType.Error then
      match decodeErrMsg SizeLimit.Infinite s1 with
      | none => (Except.error Error.Decode, s1)
      | some (err, s2) => (Except.error (Error.Server err), s2)
    else if status ≠ cmd then
      match status with
      | PkgType.Ok => (Except.error Error.UnexpectedPkg, s1)
      | PkgType.Response =>
        match decodeResultSet SizeLimit.Infinite s1 with
        | none => (Except.error Error.Decode, s1)
        | some (_, s2) => (Except.error Error.UnexpectedPkg, s2)
      | PkgType.Greet =>
        match decodeGreeting SizeLimit.Infinite s1 with
        | none => (Except.error Error.Decode, s1)
        | some (_, s2) => (Except.error Error.UnexpectedPkg, s2)
      | _ => (Except.error Error.UnexpectedPkg, s1)
    else (Except.ok (), s1)

/-- Splits a character list at the dots, modelling the octet splitting of
`Ipv4Addr::from_str`. -/
def splitDots : List Char → List (List Char)
  | [] => [[]]
  | c :: cs =>
    let r := splitDots cs
    if c = ('.' : Char) then [] :: r
    else
      match r with
      | [] => [[c]]
      | p :: ps => (c :: p) :: ps

/-- The numeric value of a decimal digit string. -/
def digitsVal (p : List Char) : Nat :=
  p.foldl (fun a c => a * 10 + (c.toNat - 48)) 0

/-- One dotted-decimal octet: one to three decimal digits with value at most
255. -/
def isOctet (p : List Char) : Bool :=
  decide (1 ≤ p.length) && decide (p.length ≤ 3) &&
    p.all Char.isDigit && decide (digitsVal p ≤ 255)

/-- Models `std::net::Ipv4Addr::from_str` (external to the repository):
the string parses exactly when it is four dotted-decimal octets. -/
def ipv4_from_str (s : String) : Bool :=
  let ps := splitDots s.data
  ps.length = 4 && ps.all isOctet

/-- The client-side socket: the items the server has placed on the stream and
not yet consumed by the client, and the items the client has sent so far. -/
structure TcpSock where
  inp : List WireItem
  out : List WireItem
deriving DecidableEq, Repr

/-- `encode_into(v, sink, SizeLimit::Bounded(bound))` under the abstract
encoded-size function `encSize`: appends the item when its encoding fits the
bound, otherwise fails with an encoding error writing nothing. -/
def encode_into (encSize : WireValue → Nat) (v : WireValue) (sock : TcpSock)
    (bound : Nat) : Except Error TcpSock :=
  if encSize v ≤ bound then
    Except.ok { sock with out := sock.out ++ [⟨v, encSize v⟩] }
  else Except.error Error.Encode

/-- `send_cmd` (`src/src/lib.rs` lines 225-231): encode the `Command` tag
(bounded 1024), then the command variant (bounded by `size`). -/
def send_cmd (encSize : WireValue → Nat) (sock : TcpSock) (cmd : Command)
    (size : Nat) : Except Error Unit × TcpSock :=
  match encode_into encSize (WireValue.pkg PkgType.Command) sock 1024 with
  | Except.error e => (Except.error e, sock)
  | Except.ok sock1 =>
    match encode_into encSize (WireValue.command cmd) sock1 size with
    | Except.error e => (Except.error e, sock1)
    | Except.ok sock2 => (Except.ok (), sock2)

/-- The client connection (`Connection` in `src/src/lib.rs`): IP, port, the
socket, the decoded greeting and the login data. -/
structure Connection where
  ip : String
  port : Nat
  tcp : TcpSock
  greeting : Greeting
  user_data : LoginData
deriving DecidableEq, Repr

/-- `Connection::connect` (`src/src/lib.rs` lines 100-149): parse the IPv4
address, open the TCP connection (`tcpOk` models whether
`TcpStream::connect` succeeds), `receive` a `Greet` tag, decode the
`Greeting` (bounded 1024), encode the `Login` tag and `Login` payload (both
bounded 1024), then decode the response tag directly (bounded 1024) and
match it: `AccGranted` yields the connection, `AccDenied` an `Auth` error,
anything else `UnexpectedPkg`.  The second component is the list of items
sent during the attempt. -/
def connect (encSize : WireValue → Nat) (addr : String) (port : Nat)
    (usern passwd : String) (tcpOk : Bool) (srv : List WireItem) :
    Except Error Connection × List WireItem :=
  if ipv4_from_str addr = false then (Except.error Error.AddrParse, [])
  else if tcpOk = false then (Except.error Error.Io, [])
  else
    match receive srv PkgType.Greet with
    | (Except.error e, _) => (Except.error e, [])
    | (Except.ok _, s1) =>
      match decodeGreeting (SizeLimit.Bounded 1024) s1 with
      | none => (Except.error Error.Decode, [])
      | some (greet, s2) =>
        let log : LoginData := ⟨usern, passwd⟩
        match encode_into encSize (WireValue.pkg PkgType.Login) ⟨s2, []⟩
            1024 with
        | Except.error e => (Except.error e, [])
        | Except.ok sock1 =>
          match encode_into encSize (WireValue.login log) sock1 1024 with
          | Except.error e => (Except.error e, sock1.out)
          | Except.ok sock2 =>
            match decodePkg (SizeLimit.Bounded 1024) sock2.inp with
            | none => (Except.error Error.Decode, sock2.out)
            | some (status, s3) =>
              match status with
              | PkgType.AccGranted =>
                (Except.ok ⟨addr, port, ⟨s3, sock2.out⟩, greet, log⟩,
                  sock2.out)
              | PkgType.AccDenied => (Except.error Error.Auth, sock2.out)
              | _ => (Except.error Error.UnexpectedPkg, sock2.out)

/-- `Connection::ping` (`src/src/lib.rs` lines 152-161): send
`Command::Ping`, then expect an `Ok` tag. -/
def ping (encSize : WireValue → Nat) (c : Connection) :
    Except Error Unit × Connection :=
  match send_cmd encSize c.tcp Command.Ping 1024 with
  | (Except.error e, sock) => (Except.error e, { c with tcp := sock })
  | (Except.ok _, sock) =>
    match receive sock.inp PkgType.Ok with
    | (r, inp1) => (r, { c with tcp := { sock with inp := inp1 } })

/-- `Connection::quit` (`src/src/lib.rs` lines 164-173): send
`Command::Quit`, then expect an `Ok` tag.  No other effect: in particular
the socket is not closed by `quit` itself. -/
def quit (encSize : WireValue → Nat) (c : Connection) :
    Except Error Unit × Connection :=
  match send_cmd encSize c.tcp Command.Quit 1024 with
  | (Except.error e, sock) => (Except.error e, { c with tcp := sock })
  | (Except.ok _, sock) =>
    match receive sock.inp PkgType.Ok with
    | (r, inp1) => (r, { c with tcp := { sock with inp := inp1 } })

/-- `Connection::execute` (`src/src/lib.rs` lines 176-190): send
`Command::Query(query)`, expect a `Response` tag, decode a `ResultSet`
(unbounded) and hand it to `preprocess` (an external collaborator, passed as
a parameter). -/
def execute (encSize : WireValue → Nat) (preprocess : ResultSet → DataSet)
    (c : Connection) (query : String) : Except Error DataSet × Connection :=
  match send_cmd encSize c.tcp (Command.Query query) 1024 with
  | (Except.error e, sock) => (Except.error e, { c with tcp := sock })
  | (Except.ok _, sock) =>
    match receive sock.inp PkgType.Response with
    | (Except.error e, inp1) =>
      (Except.error e, { c with tcp := { sock with inp := inp1 } })
    | (Except.ok _, inp1) =>
      match decodeResultSet SizeLimit.Infinite inp1 with
      | none =>
        (Except.error Error.Decode, { c with tcp := { sock with inp := inp1 } })
      | some (rows, inp2) =>
        (Except.ok (preprocess rows),
          { c with tcp := { sock with inp := inp2 } })

/-- `Connection::get_version`. -/
def Connection.get_version (c : Connection) : Nat :=
  c.greeting.protocol_version

/-- `Connection::get_message`. -/
def Connection.get_message (c : Connection) : String :=
  c.greeting.message

/-- `Connection::get_ip`. -/
def Connection.get_ip (c : Connection) : String :=
  c.ip

/-- `Connection::get_port`. -/
def Connection.get_port (c : Connection) : Nat :=
  c.port

/-- `Connection::get_username`. -/
def Connection.get_username (c : Connection) : String :=
  c.user_data.username

/-- A client-side operation performed after `connect`. -/
inductive ClientOp where
  | ping
  | quit
  | execute (q : String)
deriving DecidableEq, Repr

/-- The connection state after running a sequence of client operations. -/
def runOps (encSize : WireValue → Nat) (preprocess : ResultSet → DataSet) :
    List ClientOp → Connection → Connection
  | [], c => c
  | op :: ops, c =>
    let c1 :=
      match op with
      | ClientOp.ping => (ping encSize c).2
      | ClientOp.quit => (quit encSize c).2
      | ClientOp.execute q => (execute encSize preprocess c q).2
    runOps encSize preprocess ops c1

/-! ## Helper lemmas -/

theorem fits_bounded_true {n sz : Nat} (h : sz ≤ n) :
    SizeLimit.fits (SizeLimit.Bounded n) sz = true := by
  simp [SizeLimit.fits, h]

theorem fits_bounded_false {n sz : Nat} (h : n < sz) :
    SizeLimit.fits (SizeLimit.Bounded n) sz = false := by
  simp [SizeLimit.fits]
  omega

theorem fits_infinite_true (sz : Nat) :
    SizeLimit.fits SizeLimit.Infinite sz = true := rfl

theorem decodePkg_cons {lim : SizeLimit} {t : PkgType} {sz : Nat}
    {rest : List WireItem} :
    decodePkg lim (⟨WireValue.pkg t, sz⟩ :: rest) =
      if lim.fits sz then some (t, rest) else none := rfl

theorem decodeGreeting_cons {lim : SizeLimit} {g : Greeting} {sz : Nat}
    {rest : List WireItem} :
    decodeGreeting lim (⟨WireValue.greeting g, sz⟩ :: rest) =
      if lim.fits sz then some (g, rest) else none := rfl

theorem decodeErrMsg_cons {lim : SizeLimit} {e : ClientErrMsg} {sz : Nat}
    {rest : List WireItem} :
    decodeErrMsg lim (⟨WireValue.errMsg e, sz⟩ :: rest) =
      if lim.fits sz then some (e, rest) else none := rfl

theorem decodeResultSet_cons {lim : SizeLimit} {r : ResultSet} {sz : Nat}
    {rest : List WireItem} :
    decodeResultSet lim (⟨WireValue.resultSet r, sz⟩ :: rest) =
      if lim.fits sz then some (r, rest) else none := rfl

/-- On an `Error` tag within the tag bound, `receive` decodes the
`ClientErrMsg` (any size) and fails with `Error::Server`. -/
theorem receive_error_head {e : ClientErrMsg} {st se : Nat}
    {rest : List WireItem} (cmd : PkgType) (hst : st ≤ 1024) :
    receive (⟨WireValue.pkg PkgType.Error, st⟩ ::
        ⟨WireValue.errMsg e, se⟩ :: rest) cmd
      = (Except.error (Error.Server e), rest) := by
  simp [receive, decodePkg_cons, decodeErrMsg_cons, fits_bounded_true hst,
    fits_infinite_true]

/-- On the expected (non-`Error`) tag within the tag bound, `receive`
succeeds leaving the payload for the caller. -/
theorem receive_expected_head {cmd : PkgType} {st : Nat}
    {rest : List WireItem} (hcmd : cmd ≠ PkgType.Error) (hst : st ≤ 1024) :
    receive (⟨WireValue.pkg cmd, st⟩ :: rest) cmd = (Except.ok (), rest) := by
  simp [receive, decodePkg_cons, fits_bounded_true hst, hcmd]

/-- When both encodings fit, `send_cmd` appends the `Command` tag and the
command variant to the output and leaves the input untouched. -/
theorem send_cmd_ok {encSize : WireValue → Nat} {sock : TcpSock}
    {cmd : Command} {size : Nat}
    (h1 : encSize (WireValue.pkg PkgType.Command) ≤ 1024)
    (h2 : encSize (WireValue.command cmd) ≤ size) :
    send_cmd encSize sock cmd size =
      (Except.ok (), ⟨sock.inp, sock.out ++
        [⟨WireValue.pkg PkgType.Command, encSize (WireValue.pkg PkgType.Command)⟩,
         ⟨WireValue.command cmd, encSize (WireValue.command cmd)⟩]⟩) := by
  simp [send_cmd, encode_into, h1, h2]

/-- When the command variant exceeds the bound, `send_cmd` fails with an
encoding error after writing only the tag. -/
theorem send_cmd_cmd_too_big {encSize : WireValue → Nat} {sock : TcpSock}
    {cmd : Command} {size : Nat}
    (h1 : encSize (WireValue.pkg PkgType.Command) ≤ 1024)
    (h2 : size < encSize (WireValue.command cmd)) :
    send_cmd encSize sock cmd size =
      (Except.error Error.Encode, ⟨sock.inp, sock.out ++
        [⟨WireValue.pkg PkgType.Command,
          encSize (WireValue.pkg PkgType.Command)⟩]⟩) := by
  have h2' : ¬ encSize (WireValue.command cmd) ≤ size := by omega
  simp [send_cmd, encode_into, h1, h2']

theorem le_of_fits_bounded {n sz : Nat}
    (h : SizeLimit.fits (SizeLimit.Bounded n) sz = true) : sz ≤ n := by
  simpa [SizeLimit.fits] using h

theorem decodePkg_nil {lim : SizeLimit} : decodePkg lim [] = none := rfl

/-- A successful tag decode pins down the head of the stream. -/
theorem decodePkg_head_pkg {lim : SizeLimit} {s : List WireItem}
    {t : PkgType} {rest : List WireItem}
    (h : decodePkg lim s = some (t, rest)) :
    ∃ sz, s = ⟨WireValue.pkg t, sz⟩ :: rest ∧ lim.fits sz = true := by
  match s with
  | [] => simp [decodePkg_nil] at h
  | ⟨WireValue.pkg t2, sz⟩ :: tl =>
    rw [decodePkg_cons] at h
    by_cases hf : SizeLimit.fits lim sz = true
    · simp [hf] at h
      exact ⟨sz, by rw [h.1, h.2], hf⟩
    · simp [hf] at h
  | ⟨WireValue.greeting g, sz⟩ :: tl => simp [show decodePkg lim
      (⟨WireValue.greeting g, sz⟩ :: tl) = none from rfl] at h
  | ⟨WireValue.login l, sz⟩ :: tl => simp [show decodePkg lim
      (⟨WireValue.login l, sz⟩ :: tl) = none from rfl] at h
  | ⟨WireValue.command c, sz⟩ :: tl => simp [show decodePkg lim
      (⟨WireValue.command c, sz⟩ :: tl) = none from rfl] at h
  | ⟨WireValue.errMsg e, sz⟩ :: tl => simp [show decodePkg lim
      (⟨WireValue.errMsg e, sz⟩ :: tl) = none from rfl] at h
  | ⟨WireValue.resultSet r, sz⟩ :: tl => simp [show decodePkg lim
      (⟨WireValue.resultSet r, sz⟩ :: tl) = none from rfl] at h

/-- A successful greeting decode pins down the head of the stream. -/
theorem decodeGreeting_head {lim : SizeLimit} {s : List WireItem}
    {g : Greeting} {rest : List WireItem}
    (h : decodeGreeting lim s = some (g, rest)) :
    ∃ sz, s = ⟨WireValue.greeting g, sz⟩ :: rest ∧ lim.fits sz = true := by
  match s with
  | [] => simp [show decodeGreeting lim [] = none from rfl] at h
  | ⟨WireValue.greeting g2, sz⟩ :: tl =>
    rw [decodeGreeting_cons] at h
    by_cases hf : SizeLimit.fits lim sz = true
    · simp [hf] at h
      exact ⟨sz, by rw [h.1, h.2], hf⟩
    · simp [hf] at h
  | ⟨WireValue.pkg t, sz⟩ :: tl => simp [show decodeGreeting lim
      (⟨WireValue.pkg t, sz⟩ :: tl) = none from rfl] at h
  | ⟨WireValue.login l, sz⟩ :: tl => simp [show decodeGreeting lim
      (⟨WireValue.login l, sz⟩ :: tl) = none from rfl] at h
  | ⟨WireValue.command c, sz⟩ :: tl => simp [show decodeGreeting lim
      (⟨WireValue.command c, sz⟩ :: tl) = none from rfl] at h
  | ⟨WireValue.errMsg e, sz⟩ :: tl => simp [show decodeGreeting lim
      (⟨WireValue.errMsg e, sz⟩ :: tl) = none from rfl] at h
  | ⟨WireValue.resultSet r, sz⟩ :: tl => simp [show decodeGreeting lim
      (⟨WireValue.resultSet r, sz⟩ :: tl) = none from rfl] at h

/-- If `receive` succeeds expecting `Greet`, the stream began with a `Greet`
tag within the 1024-byte tag bound. -/
theorem receive_greet_ok {s s' : List WireItem} {u : Unit}
    (h : receive s PkgType.Greet = (Except.ok u, s')) :
    ∃ sz, s = ⟨WireValue.pkg PkgType.Greet, sz⟩ :: s' ∧ sz ≤ 1024 := by
  rcases hd : decodePkg (SizeLimit.Bounded 1024) s with _ | ⟨t, s1⟩
  · simp [receive, hd] at h
  · cases t
    case Greet =>
      simp only [receive, hd] at h
      simp at h
      obtain ⟨sz, hs, hf⟩ := decodePkg_head_pkg hd
      exact ⟨sz, by rw [hs, h], le_of_fits_bounded hf⟩
    case Error =>
      rcases he : decodeErrMsg SizeLimit.Infinite s1 with _ | ⟨e, s2⟩ <;>
        simp [receive, hd, he] at h
    case Response =>
      rcases hr : decodeResultSet SizeLimit.Infinite s1 with _ | ⟨r, s2⟩ <;>
        simp [receive, hd, hr] at h
    all_goals simp [receive, hd] at h

/-- `connect` against the granted handshake stream, fully computed. -/
theorem connect_granted {encSize : WireValue → Nat} {addr : String}
    {port : Nat} {u p : String} {sg gsz sa : Nat} {g : Greeting}
    {rest : List WireItem}
    (hip : ipv4_from_str addr = true) (hsg : sg ≤ 1024) (hgsz : gsz ≤ 1024)
    (hsa : sa ≤ 1024)
    (hE1 : encSize (WireValue.pkg PkgType.Login) ≤ 1024)
    (hE2 : encSize (WireValue.login ⟨u, p⟩) ≤ 1024) :
    connect encSize addr port u p true
        (⟨WireValue.pkg PkgType.Greet, sg⟩ :: ⟨WireValue.greeting g, gsz⟩ ::
          ⟨WireValue.pkg PkgType.AccGranted, sa⟩ :: rest)
      = (Except.ok ⟨addr, port, ⟨rest,
          [⟨WireValue.pkg PkgType.Login, encSize (WireValue.pkg PkgType.Login)⟩,
           ⟨WireValue.login ⟨u, p⟩, encSize (WireValue.login ⟨u, p⟩)⟩]⟩,
          g, ⟨u, p⟩⟩,
         [⟨WireValue.pkg PkgType.Login, encSize (WireValue.pkg PkgType.Login)⟩,
          ⟨WireValue.login ⟨u, p⟩, encSize (WireValue.login ⟨u, p⟩)⟩]) := by
  simp [connect, hip,
    receive_expected_head (show PkgType.Greet ≠ PkgType.Error by decide) hsg,
    decodeGreeting_cons, fits_bounded_true hgsz, encode_into, hE1, hE2,
    decodePkg_cons, fits_bounded_true hsa]

/-! ## Claims -/

/-- Claim C10: `connect` accepts only a literal dotted-decimal IPv4 string;
for every `addr` that does not parse as an `Ipv4Addr`, it fails with
`Error::AddrParse` before any TCP connection is attempted (the result does
not depend on whether the TCP connect would succeed) and before any bytes
are sent (empty send trace) or read (the result does not depend on the
server's stream). -/
theorem C10_addr_parse (addr : String) (h : ipv4_from_str addr = false)
    (encSize : WireValue → Nat) (port : Nat) (usern passwd : String)
    (tcpOk : Bool) (srv : List WireItem) :
    connect encSize addr port usern passwd tcpOk srv
      = (Except.error Error.AddrParse, []) := by
  simp [connect, h]

/-- Witness for C10 at `addr = "localhost"`. -/
theorem C10_addr_parse_witness :
    connect (fun _ => 4) ("localhost") 4242 ("alice") ("pw") true
        [⟨WireValue.pkg PkgType.Greet, 4⟩]
      = (Except.error Error.AddrParse, []) :=
  C10_addr_parse ("localhost") (by decide) (fun _ => 4) 4242 ("alice")
    ("pw") true [⟨WireValue.pkg PkgType.Greet, 4⟩]

/-- Claim C1: whenever the tag read by `receive` is `Error`, the
`ClientErrMsg` payload `e` is decoded next (any size) and the call fails
with `Error::Server e` — never with `Error::UnexpectedPkg` — for every
expected tag, and the description of that error is exactly `e.msg`.  The
same outcome is observed at every call site of `receive`: `ping`, `quit`,
`execute`, and the greeting step of `connect`. -/
theorem C1_error_precedence (encSize : WireValue → Nat)
    (preprocess : ResultSet → DataSet) (e : ClientErrMsg) (st se : Nat)
    (rest : List WireItem) (hst : st ≤ 1024)
    (hCmdTag : encSize (WireValue.pkg PkgType.Command) ≤ 1024) :
    (∀ expected : PkgType,
      receive (⟨WireValue.pkg PkgType.Error, st⟩ ::
          ⟨WireValue.errMsg e, se⟩ :: rest) expected
        = (Except.error (Error.Server e), rest))
    ∧ (Error.Server e).description = e.msg
    ∧ (∀ c : Connection,
        encSize (WireValue.command Command.Ping) ≤ 1024 →
        c.tcp.inp = ⟨WireValue.pkg PkgType.Error, st⟩ ::
          ⟨WireValue.errMsg e, se⟩ :: rest →
        (ping encSize c).1 = Except.error (Error.Server e))
    ∧ (∀ c : Connection,
        encSize (WireValue.command Command.Quit) ≤ 1024 →
        c.tcp.inp = ⟨WireValue.pkg PkgType.Error, st⟩ ::
          ⟨WireValue.errMsg e, se⟩ :: rest →
        (quit encSize c).1 = Except.error (Error.Server e))
    ∧ (∀ (c : Connection) (q : String),
        encSize (WireValue.command (Command.Query q)) ≤ 1024 →
        c.tcp.inp = ⟨WireValue.pkg PkgType.Error, st⟩ ::
          ⟨WireValue.errMsg e, se⟩ :: rest →
        (execute encSize preprocess c q).1 = Except.error (Error.Server e))
    ∧ (∀ (addr : String) (port : Nat) (usern passwd : String),
        ipv4_from_str addr = true →
        (connect encSize addr port usern passwd true
            (⟨WireValue.pkg PkgType.Error, st⟩ ::
              ⟨WireValue.errMsg e, se⟩ :: rest)).1
          = Except.error (Error.Server e)) := by
  refine ⟨fun expected => receive_error_head expected hst, rfl, ?_, ?_, ?_, ?_⟩
  · intro c hq hc
    simp [ping, send_cmd_ok hCmdTag hq, hc, receive_error_head _ hst]
  · intro c hq hc
    simp [quit, send_cmd_ok hCmdTag hq, hc, receive_error_head _ hst]
  · intro c q hq hc
    simp [execute, send_cmd_ok hCmdTag hq, hc, receive_error_head _ hst]
  · intro addr port usern passwd hip
    simp [connect, hip, receive_error_head _ hst]

/-- Witness for C1 at a concrete error stream and connection. -/
theorem C1_error_precedence_witness :
    receive [⟨WireValue.pkg PkgType.Error, 4⟩,
        ⟨WireValue.errMsg ⟨"query failed"⟩, 5000⟩] PkgType.Response
      = (Except.error (Error.Server ⟨"query failed"⟩), []) :=
  (C1_error_precedence (fun _ => 4) (fun r => ⟨r.rows⟩) ⟨"query failed"⟩ 4
    5000 [] (by decide) (by decide)).1 PkgType.Response

/-- Claim C4: when `receive` reads a tag that is neither `Error` nor the
expected one, it first consumes the payload the received tag implies
(`Ok` → none, `Response` → `ResultSet`, `Greet` → `Greeting`, every other
tag → none) and only then fails with `Error::UnexpectedPkg`, leaving the
stream aligned immediately after that payload. -/
theorem C4_mismatch_drains (expected t : PkgType) (st : Nat)
    (hst : st ≤ 1024) (hne : t ≠ expected) (ht : t ≠ PkgType.Error) :
    (∀ rest : List WireItem, t = PkgType.Ok →
      receive (⟨WireValue.pkg t, st⟩ :: rest) expected
        = (Except.error Error.UnexpectedPkg, rest))
    ∧ (∀ (r : ResultSet) (sz : Nat) (rest : List WireItem),
        t = PkgType.Response →
        receive (⟨WireValue.pkg t, st⟩ ::
            ⟨WireValue.resultSet r, sz⟩ :: rest) expected
          = (Except.error Error.UnexpectedPkg, rest))
    ∧ (∀ (g : Greeting) (sz : Nat) (rest : List WireItem),
        t = PkgType.Greet →
        receive (⟨WireValue.pkg t, st⟩ ::
            ⟨WireValue.greeting g, sz⟩ :: rest) expected
          = (Except.error Error.UnexpectedPkg, rest))
    ∧ (∀ rest : List WireItem,
        t ≠ PkgType.Ok → t ≠ PkgType.Response → t ≠ PkgType.Greet →
        receive (⟨WireValue.pkg t, st⟩ :: rest) expected
          = (Except.error Error.UnexpectedPkg, rest)) := by
  refine ⟨?_, ?_, ?_, ?_⟩
  · intro rest h
    subst h
    simp [receive, decodePkg_cons, fits_bounded_true hst, hne, ht]
  · intro r sz rest h
    subst h
    simp [receive, decodePkg_cons, decodeResultSet_cons,
      fits_bounded_true hst, fits_infinite_true, hne, ht]
  · intro g sz rest h
    subst h
    simp [receive, decodePkg_cons, decodeGreeting_cons,
      fits_bounded_true hst, fits_infinite_true, hne, ht]
  · intro rest h1 h2 h3
    cases t <;> simp_all [receive, decodePkg_cons, fits_bounded_true hst]

/-- Witness for C4: a mismatched `Greet` packet (expected `Ok`) is drained
together with its `Greeting` payload. -/
theorem C4_mismatch_drains_witness :
    receive [⟨WireValue.pkg PkgType.Greet, 4⟩,
        ⟨WireValue.greeting ⟨1, "hello"⟩, 10⟩,
        ⟨WireValue.pkg PkgType.Ok, 4⟩] PkgType.Ok
      = (Except.error Error.UnexpectedPkg, [⟨WireValue.pkg PkgType.Ok, 4⟩]) :=
  (C4_mismatch_drains PkgType.Ok PkgType.Greet 4 (by decide) (by decide)
    (by decide)).2.2.1 ⟨1, "hello"⟩ 10 [⟨WireValue.pkg PkgType.Ok, 4⟩] rfl

/-- Claim C3: `connect` returns a `Connection` exactly when the server's
stream delivers a `Greet` tag, a `Greeting` payload and an `AccGranted` tag
(each within the 1024-byte bound); an `AccDenied` login response fails with
`Error::Auth`, any other non-`Error` login-response tag with
`Error::UnexpectedPkg`; a failing greeting step surfaces its error; and no
failure produces a `Connection` value. -/
theorem C3_handshake_iff (encSize : WireValue → Nat) (addr : String)
    (port : Nat) (u p : String) (srv : List WireItem)
    (hip : ipv4_from_str addr = true)
    (hE1 : encSize (WireValue.pkg PkgType.Login) ≤ 1024)
    (hE2 : encSize (WireValue.login ⟨u, p⟩) ≤ 1024) :
    ((∃ c, (connect encSize addr port u p true srv).1 = Except.ok c) ↔
      (∃ (sg gsz sa : Nat) (g : Greeting) (rest : List WireItem),
        srv = ⟨WireValue.pkg PkgType.Greet, sg⟩ ::
            ⟨WireValue.greeting g, gsz⟩ ::
            ⟨WireValue.pkg PkgType.AccGranted, sa⟩ :: rest ∧
          sg ≤ 1024 ∧ gsz ≤ 1024 ∧ sa ≤ 1024))
    ∧ (∀ (sg gsz sa : Nat) (g : Greeting) (rest : List WireItem),
        sg ≤ 1024 → gsz ≤ 1024 → sa ≤ 1024 →
        (connect encSize addr port u p true
            (⟨WireValue.pkg PkgType.Greet, sg⟩ ::
              ⟨WireValue.greeting g, gsz⟩ ::
              ⟨WireValue.pkg PkgType.AccDenied, sa⟩ :: rest)).1
          = Except.error Error.Auth)
    ∧ (∀ (sg gsz sa : Nat) (g : Greeting) (t : PkgType)
          (rest : List WireItem),
        sg ≤ 1024 → gsz ≤ 1024 → sa ≤ 1024 →
        t ≠ PkgType.AccGranted → t ≠ PkgType.AccDenied →
        t ≠ PkgType.Error →
        (connect encSize addr port u p true
            (⟨WireValue.pkg PkgType.Greet, sg⟩ ::
              ⟨WireValue.greeting g, gsz⟩ ::
              ⟨WireValue.pkg t, sa⟩ :: rest)).1
          = Except.error Error.UnexpectedPkg)
    ∧ (∀ (e : Error) (s' : List WireItem),
        receive srv PkgType.Greet = (Except.error e, s') →
        (connect encSize addr port u p true srv).1 = Except.error e)
    ∧ (∀ e : Error, (connect encSize addr port u p true srv).1
          = Except.error e →
        ∀ c : Connection, (connect encSize addr port u p true srv).1
          ≠ Except.ok c) := by
  have hge : PkgType.Greet ≠ PkgType.Error := by decide
  refine ⟨⟨?_, ?_⟩, ?_, ?_, ?_, ?_⟩
  · rintro ⟨c, h⟩
    rcases hr : receive srv PkgType.Greet with ⟨r, s1⟩
    cases r with
    | error e => simp [connect, hip, hr] at h
    | ok v =>
      obtain ⟨sg, hs, hsg⟩ := receive_greet_ok hr
      rcases hg : decodeGreeting (SizeLimit.Bounded 1024) s1 with _ | ⟨g, s2⟩
      · simp [connect, hip, hr, hg] at h
      · obtain ⟨gsz, hs1, hfg⟩ := decodeGreeting_head hg
        rcases hp : decodePkg (SizeLimit.Bounded 1024) s2 with _ | ⟨status, s3⟩
        · simp [connect, hip, hr, hg, encode_into, hE1, hE2, hp] at h
        · obtain ⟨sa, hs2, hfa⟩ := decodePkg_head_pkg hp
          cases status
          case AccGranted =>
            exact ⟨sg, gsz, sa, g, s3, by rw [hs, hs1, hs2], hsg,
              le_of_fits_bounded hfg, le_of_fits_bounded hfa⟩
          all_goals simp [connect, hip, hr, hg, encode_into, hE1, hE2, hp] at h
  · rintro ⟨sg, gsz, sa, g, rest, hsrv, hsg, hgsz, hsa⟩
    subst hsrv
    exact ⟨_, by rw [connect_granted hip hsg hgsz hsa hE1 hE2]⟩
  · intro sg gsz sa g rest hsg hgsz hsa
    simp [connect, hip, receive_expected_head hge hsg, decodeGreeting_cons,
      fits_bounded_true hgsz, encode_into, hE1, hE2, decodePkg_cons,
      fits_bounded_true hsa]
  · intro sg gsz sa g t rest hsg hgsz hsa h1 h2 h3
    cases t <;> simp_all [connect, hip, receive_expected_head hge hsg,
      decodeGreeting_cons, fits_bounded_true hgsz, encode_into, hE1, hE2,
      decodePkg_cons, fits_bounded_true hsa]
  · intro e s' hrec
    simp [connect, hip, hrec]
  · intro e he c hc
    rw [he] at hc
    exact Except.noConfusion hc

/-- Witness for C3 at a concrete denied handshake. -/
theorem C3_handshake_iff_witness :
    (connect (fun _ => 4) ("1.2.3.4") 4242 ("alice") ("pw") true
        [⟨WireValue.pkg PkgType.Greet, 4⟩,
         ⟨WireValue.greeting ⟨1, "hello"⟩, 10⟩,
         ⟨WireValue.pkg PkgType.AccDenied, 4⟩]).1 = Except.error Error.Auth :=
  (C3_handshake_iff (fun _ => 4) ("1.2.3.4") 4242 ("alice") ("pw") []
      (by decide) (by decide) (by decide)).2.1 4 10 4 ⟨1, "hello"⟩ []
    (by decide) (by decide) (by decide)

/-- Counterexample to claim C2: when the login response tag is `Error`,
`connect` fails with `Error::UnexpectedPkg` and not with the server-error
kind — the `ClientErrMsg` is never decoded (`src/src/lib.rs` lines 139-148
match the login-response tag directly, without going through `receive`). -/
theorem C2_counterexample :
    (connect (fun _ => 4) ("1.2.3.4") 4242 ("alice") ("pw") true
        [⟨WireValue.pkg PkgType.Greet, 4⟩,
         ⟨WireValue.greeting ⟨1, "hello"⟩, 10⟩,
         ⟨WireValue.pkg PkgType.Error, 4⟩,
         ⟨WireValue.errMsg ⟨"denied"⟩, 10⟩]).1
      = Except.error Error.UnexpectedPkg
    ∧ (connect (fun _ => 4) ("1.2.3.4") 4242 ("alice") ("pw") true
        [⟨WireValue.pkg PkgType.Greet, 4⟩,
         ⟨WireValue.greeting ⟨1, "hello"⟩, 10⟩,
         ⟨WireValue.pkg PkgType.Error, 4⟩,
         ⟨WireValue.errMsg ⟨"denied"⟩, 10⟩]).1
      ≠ Except.error (Error.Server ⟨"denied"⟩) := by
  refine ⟨rfl, ?_⟩
  intro hc
  rw [show (connect (fun _ => 4) ("1.2.3.4") 4242 ("alice") ("pw") true
      [⟨WireValue.pkg PkgType.Greet, 4⟩,
       ⟨WireValue.greeting ⟨1, "hello"⟩, 10⟩,
       ⟨WireValue.pkg PkgType.Error, 4⟩,
       ⟨WireValue.errMsg ⟨"denied"⟩, 10⟩]).1
      = Except.error Error.UnexpectedPkg from rfl] at hc
  injection hc with hc2
  exact absurd hc2 (by decide)

/-- Claim C2 as amended: during `connect`, if the tag read as the login
response is `Error`, the client does not decode the `ClientErrMsg` payload
and `connect` fails with the unexpected-packet kind
(`Error::UnexpectedPkg`), not with the server-error kind. -/
theorem C2_amended (encSize : WireValue → Nat) (addr : String) (port : Nat)
    (u p : String) (sg gsz st se : Nat) (g : Greeting) (e : ClientErrMsg)
    (rest : List WireItem) (hip : ipv4_from_str addr = true)
    (hsg : sg ≤ 1024) (hgsz : gsz ≤ 1024) (hst : st ≤ 1024)
    (hE1 : encSize (WireValue.pkg PkgType.Login) ≤ 1024)
    (hE2 : encSize (WireValue.login ⟨u, p⟩) ≤ 1024) :
    (connect encSize addr port u p true
        (⟨WireValue.pkg PkgType.Greet, sg⟩ :: ⟨WireValue.greeting g, gsz⟩ ::
          ⟨WireValue.pkg PkgType.Error, st⟩ ::
          ⟨WireValue.errMsg e, se⟩ :: rest)).1
      = Except.error Error.UnexpectedPkg := by
  simp [connect, hip,
    receive_expected_head (show PkgType.Greet ≠ PkgType.Error by decide) hsg,
    decodeGreeting_cons, fits_bounded_true hgsz, encode_into, hE1, hE2,
    decodePkg_cons, fits_bounded_true hst]

/-- Witness for the amended C2 at a concrete stream. -/
theorem C2_amended_witness :
    (connect (fun _ => 4) ("1.2.3.4") 4242 ("alice") ("pw") true
        [⟨WireValue.pkg PkgType.Greet, 4⟩,
         ⟨WireValue.greeting ⟨1, "hello"⟩, 10⟩,
         ⟨WireValue.pkg PkgType.Error, 4⟩,
         ⟨WireValue.errMsg ⟨"boom"⟩, 10⟩]).1
      = Except.error Error.UnexpectedPkg :=
  C2_amended (fun _ => 4) ("1.2.3.4") 4242 ("alice") ("pw") 4 10 4 10
    ⟨1, "hello"⟩ ⟨"boom"⟩ [] (by decide) (by decide) (by decide) (by decide)
    (by decide) (by decide)

/-- Claim C9: a mismatch-drained `Greeting` is decoded with an unbounded
size limit while the handshake decodes the expected `Greeting` with the
1024-byte bound: for any greeting payload larger than 1024 bytes, the
handshake rejects it with a decode error while the mismatch-drain path of
`receive` consumes it fully. -/
theorem C9_drain_unbounded (g : Greeting) (sz st : Nat) (hsz : 1024 < sz)
    (hst : st ≤ 1024) (encSize : WireValue → Nat) (addr : String)
    (port : Nat) (u p : String) (rest : List WireItem) (expected : PkgType)
    (hip : ipv4_from_str addr = true) (hexp : expected ≠ PkgType.Greet) :
    (connect encSize addr port u p true
        (⟨WireValue.pkg PkgType.Greet, st⟩ ::
          ⟨WireValue.greeting g, sz⟩ :: rest)).1
      = Except.error Error.Decode
    ∧ receive (⟨WireValue.pkg PkgType.Greet, st⟩ ::
          ⟨WireValue.greeting g, sz⟩ :: rest) expected
      = (Except.error Error.UnexpectedPkg, rest) := by
  constructor
  · simp [connect, hip,
      receive_expected_head (show PkgType.Greet ≠ PkgType.Error by decide)
        hst,
      decodeGreeting_cons, fits_bounded_false hsz]
  · simp [receive, decodePkg_cons, fits_bounded_true hst,
      decodeGreeting_cons, fits_infinite_true, hexp.symm]

/-- Witness for C9 with a 2000-byte greeting payload. -/
theorem C9_drain_unbounded_witness :
    (connect (fun _ => 4) ("1.2.3.4") 4242 ("alice") ("pw") true
        [⟨WireValue.pkg PkgType.Greet, 4⟩,
         ⟨WireValue.greeting ⟨1, "big"⟩, 2000⟩]).1
      = Except.error Error.Decode
    ∧ receive [⟨WireValue.pkg PkgType.Greet, 4⟩,
          ⟨WireValue.greeting ⟨1, "big"⟩, 2000⟩] PkgType.Ok
      = (Except.error Error.UnexpectedPkg, []) :=
  C9_drain_unbounded ⟨1, "big"⟩ 2000 4 (by decide) (by decide) (fun _ => 4)
    ("1.2.3.4") 4242 ("alice") ("pw") [] PkgType.Ok (by decide) (by decide)

/-- Counterexample to claim C5: `quit` does not tear down the socket.  On a
connection whose stream holds two `Ok` tags, `quit` succeeds and the very
same socket then carries a further successful `ping` round-trip — the
connection remains fully usable after `quit` (`src/src/lib.rs` lines
164-173 contain no teardown). -/
theorem C5_counterexample :
    (quit (fun _ => 4)
        ⟨"1.2.3.4", 4242, ⟨[⟨WireValue.pkg PkgType.Ok, 4⟩,
          ⟨WireValue.pkg PkgType.Ok, 4⟩], []⟩, ⟨1, "hi"⟩,
          ⟨"alice", "pw"⟩⟩).1 = Except.ok ()
    ∧ (ping (fun _ => 4) (quit (fun _ => 4)
        ⟨"1.2.3.4", 4242, ⟨[⟨WireValue.pkg PkgType.Ok, 4⟩,
          ⟨WireValue.pkg PkgType.Ok, 4⟩], []⟩, ⟨1, "hi"⟩,
          ⟨"alice", "pw"⟩⟩).2).1 = Except.ok () :=
  ⟨rfl, rfl⟩

/-- Claim C5 as amended: `quit` sends the `Command` tag plus the `Quit`
command variant (both within the 1024-byte bound) and then expects an `Ok`
tag in response; it does not tear down the socket itself — the connection,
with its stream advanced past the `Ok` tag, remains usable, e.g. for a
subsequent successful `ping`. -/
theorem C5_amended (encSize : WireValue → Nat) (c : Connection) (st : Nat)
    (rest : List WireItem)
    (h1 : encSize (WireValue.pkg PkgType.Command) ≤ 1024)
    (h2 : encSize (WireValue.command Command.Quit) ≤ 1024)
    (hst : st ≤ 1024)
    (hc : c.tcp.inp = ⟨WireValue.pkg PkgType.Ok, st⟩ :: rest) :
    quit encSize c = (Except.ok (),
      { c with tcp := ⟨rest, c.tcp.out ++
          [⟨WireValue.pkg PkgType.Command,
            encSize (WireValue.pkg PkgType.Command)⟩,
           ⟨WireValue.command Command.Quit,
            encSize (WireValue.command Command.Quit)⟩]⟩ })
    ∧ (∀ (st2 : Nat) (rest2 : List WireItem),
        encSize (WireValue.command Command.Ping) ≤ 1024 → st2 ≤ 1024 →
        rest = ⟨WireValue.pkg PkgType.Ok, st2⟩ :: rest2 →
        (ping encSize (quit encSize c).2).1 = Except.ok ()) := by
  have hOk : PkgType.Ok ≠ PkgType.Error := by decide
  have hq : quit encSize c = (Except.ok (),
      { c with tcp := ⟨rest, c.tcp.out ++
          [⟨WireValue.pkg PkgType.Command,
            encSize (WireValue.pkg PkgType.Command)⟩,
           ⟨WireValue.command Command.Quit,
            encSize (WireValue.command Command.Quit)⟩]⟩ }) := by
    simp [quit, send_cmd_ok h1 h2, hc, receive_expected_head hOk hst]
  refine ⟨hq, ?_⟩
  intro st2 rest2 hping hst2 hrest
  rw [hq]
  simp [ping, send_cmd_ok h1 hping, hrest, receive_expected_head hOk hst2]

/-- Witness for the amended C5 at a concrete connection. -/
theorem C5_amended_witness :
    quit (fun _ => 4)
        ⟨"1.2.3.4", 4242, ⟨[⟨WireValue.pkg PkgType.Ok, 4⟩], []⟩, ⟨1, "hi"⟩,
          ⟨"bob", "pw"⟩⟩
      = (Except.ok (), ⟨"1.2.3.4", 4242, ⟨[],
          [⟨WireValue.pkg PkgType.Command, 4⟩,
           ⟨WireValue.command Command.Quit, 4⟩]⟩, ⟨1, "hi"⟩,
          ⟨"bob", "pw"⟩⟩) :=
  (C5_amended (fun _ => 4)
    ⟨"1.2.3.4", 4242, ⟨[⟨WireValue.pkg PkgType.Ok, 4⟩], []⟩, ⟨1, "hi"⟩,
      ⟨"bob", "pw"⟩⟩ 4 [] (by decide) (by decide) (by decide) rfl).1

/-- Claim C6: control payloads — the expected handshake `Greeting`, the
`Login` tag and payload, the `Command` tag and variant (including
`Query` text) — are codec-bounded at 1024 bytes and exceeding the bound
fails the exchange with an encode/decode error, while an expected
`ResultSet` and a `ClientErrMsg` payload are decoded with an unbounded
limit. -/
theorem C6_size_bounds (encSize : WireValue → Nat)
    (preprocess : ResultSet → DataSet) (addr : String) (port : Nat)
    (u p : String) (hip : ipv4_from_str addr = true) :
    (∀ (g : Greeting) (gsz st : Nat) (rest : List WireItem),
      st ≤ 1024 → 1024 < gsz →
      (connect encSize addr port u p true
          (⟨WireValue.pkg PkgType.Greet, st⟩ ::
            ⟨WireValue.greeting g, gsz⟩ :: rest)).1
        = Except.error Error.Decode)
    ∧ (∀ (g : Greeting) (st gsz : Nat) (rest : List WireItem),
        st ≤ 1024 → gsz ≤ 1024 →
        encSize (WireValue.pkg PkgType.Login) ≤ 1024 →
        1024 < encSize (WireValue.login ⟨u, p⟩) →
        (connect encSize addr port u p true
            (⟨WireValue.pkg PkgType.Greet, st⟩ ::
              ⟨WireValue.greeting g, gsz⟩ :: rest)).1
          = Except.error Error.Encode)
    ∧ (∀ (c : Connection) (q : String),
        encSize (WireValue.pkg PkgType.Command) ≤ 1024 →
        1024 < encSize (WireValue.command (Command.Query q)) →
        (execute encSize preprocess c q).1 = Except.error Error.Encode)
    ∧ (∀ c : Connection, 1024 < encSize (WireValue.pkg PkgType.Command) →
        (ping encSize c).1 = Except.error Error.Encode)
    ∧ (∀ (e : ClientErrMsg) (st se : Nat) (rest : List WireItem)
          (expected : PkgType), st ≤ 1024 →
        receive (⟨WireValue.pkg PkgType.Error, st⟩ ::
            ⟨WireValue.errMsg e, se⟩ :: rest) expected
          = (Except.error (Error.Server e), rest))
    ∧ (∀ (c : Connection) (q : String) (r : ResultSet) (rt rsz : Nat)
          (rest : List WireItem),
        encSize (WireValue.pkg PkgType.Command) ≤ 1024 →
        encSize (WireValue.command (Command.Query q)) ≤ 1024 → rt ≤ 1024 →
        c.tcp.inp = ⟨WireValue.pkg PkgType.Response, rt⟩ ::
          ⟨WireValue.resultSet r, rsz⟩ :: rest →
        (execute encSize preprocess c q).1 = Except.ok (preprocess r)) := by
  have hge : PkgType.Greet ≠ PkgType.Error := by decide
  have hre : PkgType.Response ≠ PkgType.Error := by decide
  refine ⟨?_, ?_, ?_, ?_, ?_, ?_⟩
  · intro g gsz st rest hst hgsz
    simp [connect, hip, receive_expected_head hge hst, decodeGreeting_cons,
      fits_bounded_false hgsz]
  · intro g st gsz rest hst hgsz hE1 hbig
    have hn : ¬ encSize (WireValue.login ⟨u, p⟩) ≤ 1024 := by omega
    simp [connect, hip, receive_expected_head hge hst, decodeGreeting_cons,
      fits_bounded_true hgsz, encode_into, hE1, hn]
  · intro c q h1 hbig
    simp [execute, send_cmd_cmd_too_big h1 hbig]
  · intro c hbig
    have hn : ¬ encSize (WireValue.pkg PkgType.Command) ≤ 1024 := by omega
    simp [ping, send_cmd, encode_into, hn]
  · intro e st se rest expected hst
    exact receive_error_head expected hst
  · intro c q r rt rsz rest h1 h2 hrt hc
    simp [execute, send_cmd_ok h1 h2, hc, receive_expected_head hre hrt,
      decodeResultSet_cons, fits_infinite_true]

/-- Witness for C6: a query whose encoding exceeds 1024 bytes fails with an
encode error. -/
theorem C6_size_bounds_witness :
    (execute
        (fun v => match v with | WireValue.command _ => 2000 | _ => 4)
        (fun r => ⟨r.rows⟩)
        ⟨"1.2.3.4", 4242, ⟨[], []⟩, ⟨1, "hi"⟩, ⟨"bob", "pw"⟩⟩
        ("SELECT")).1 = Except.error Error.Encode :=
  (C6_size_bounds
    (fun v => match v with | WireValue.command _ => 2000 | _ => 4)
    (fun r => ⟨r.rows⟩) ("1.2.3.4") 4242 ("bob") ("pw")
    (by decide)).2.2.1
    ⟨"1.2.3.4", 4242, ⟨[], []⟩, ⟨1, "hi"⟩, ⟨"bob", "pw"⟩⟩ ("SELECT")
    (by decide) (by decide)

/-- Claim C7: `execute` sends the `Command` tag plus `Command::Query`, then
expects a `Response` tag; on match it decodes a `ResultSet` with an
unbounded size limit and returns `preprocess` of it; any receive failure
surfaces the corresponding error, and a failing `ResultSet` decode
surfaces a decode error (no `DataSet` is produced on those paths, the
result being the error). -/
theorem C7_execute (encSize : WireValue → Nat)
    (preprocess : ResultSet → DataSet) (c : Connection) (q : String)
    (h1 : encSize (WireValue.pkg PkgType.Command) ≤ 1024)
    (h2 : encSize (WireValue.command (Command.Query q)) ≤ 1024) :
    (∀ (r : ResultSet) (rt rsz : Nat) (rest : List WireItem), rt ≤ 1024 →
      c.tcp.inp = ⟨WireValue.pkg PkgType.Response, rt⟩ ::
        ⟨WireValue.resultSet r, rsz⟩ :: rest →
      execute encSize preprocess c q
        = (Except.ok (preprocess r), { c with tcp := ⟨rest, c.tcp.out ++
            [⟨WireValue.pkg PkgType.Command,
              encSize (WireValue.pkg PkgType.Command)⟩,
             ⟨WireValue.command (Command.Query q),
              encSize (WireValue.command (Command.Query q))⟩]⟩ }))
    ∧ (∀ (e : Error) (s1 : List WireItem),
        receive c.tcp.inp PkgType.Response = (Except.error e, s1) →
        (execute encSize preprocess c q).1 = Except.error e)
    ∧ (∀ s1 : List WireItem,
        receive c.tcp.inp PkgType.Response = (Except.ok (), s1) →
        decodeResultSet SizeLimit.Infinite s1 = none →
        (execute encSize preprocess c q).1 = Except.error Error.Decode) := by
  have hre : PkgType.Response ≠ PkgType.Error := by decide
  refine ⟨?_, ?_, ?_⟩
  · intro r rt rsz rest hrt hc
    simp [execute, send_cmd_ok h1 h2, hc, receive_expected_head hre hrt,
      decodeResultSet_cons, fits_infinite_true]
  · intro e s1 hrec
    simp [execute, send_cmd_ok h1 h2, hrec]
  · intro s1 hrec hdec
    simp [execute, send_cmd_ok h1 h2, hrec, hdec]

/-- Witness for C7 at a concrete one-row result set. -/
theorem C7_execute_witness :
    execute (fun _ => 4) (fun r => ⟨r.rows⟩)
        ⟨"1.2.3.4", 4242, ⟨[⟨WireValue.pkg PkgType.Response, 4⟩,
          ⟨WireValue.resultSet ⟨[["1"]]⟩, 5000⟩], []⟩, ⟨1, "hi"⟩,
          ⟨"bob", "pw"⟩⟩ ("SELECT 1")
      = (Except.ok ⟨[["1"]]⟩, ⟨"1.2.3.4", 4242, ⟨[],
          [⟨WireValue.pkg PkgType.Command, 4⟩,
           ⟨WireValue.command (Command.Query ("SELECT 1")), 4⟩]⟩, ⟨1, "hi"⟩,
          ⟨"bob", "pw"⟩⟩) :=
  (C7_execute (fun _ => 4) (fun r => ⟨r.rows⟩)
    ⟨"1.2.3.4", 4242, ⟨[⟨WireValue.pkg PkgType.Response, 4⟩,
      ⟨WireValue.resultSet ⟨[["1"]]⟩, 5000⟩], []⟩, ⟨1, "hi"⟩,
      ⟨"bob", "pw"⟩⟩ ("SELECT 1") (by decide) (by decide)).1
    ⟨[["1"]]⟩ 4 5000 [] (by decide) rfl

/-- `ping` only touches the socket: the other connection fields persist. -/
theorem ping_preserves_fields (encSize : WireValue → Nat) (c : Connection) :
    (ping encSize c).2.ip = c.ip ∧ (ping encSize c).2.port = c.port ∧
    (ping encSize c).2.greeting = c.greeting ∧
    (ping encSize c).2.user_data = c.user_data := by
  rcases hs : send_cmd encSize c.tcp Command.Ping 1024 with ⟨r, sock⟩
  cases r with
  | error e => simp [ping, hs]
  | ok v =>
    rcases hr : receive sock.inp PkgType.Ok with ⟨r2, inp1⟩
    simp [ping, hs, hr]

/-- `quit` only touches the socket: the other connection fields persist. -/
theorem quit_preserves_fields (encSize : WireValue → Nat) (c : Connection) :
    (quit encSize c).2.ip = c.ip ∧ (quit encSize c).2.port = c.port ∧
    (quit encSize c).2.greeting = c.greeting ∧
    (quit encSize c).2.user_data = c.user_data := by
  rcases hs : send_cmd encSize c.tcp Command.Quit 1024 with ⟨r, sock⟩
  cases r with
  | error e => simp [quit, hs]
  | ok v =>
    rcases hr : receive sock.inp PkgType.Ok with ⟨r2, inp1⟩
    simp [quit, hs, hr]

/-- `execute` only touches the socket: the other connection fields
persist. -/
theorem execute_preserves_fields (encSize : WireValue → Nat)
    (preprocess : ResultSet → DataSet) (c : Connection) (q : String) :
    (execute encSize preprocess c q).2.ip = c.ip ∧
    (execute encSize preprocess c q).2.port = c.port ∧
    (execute encSize preprocess c q).2.greeting = c.greeting ∧
    (execute encSize preprocess c q).2.user_data = c.user_data := by
  rcases hs : send_cmd encSize c.tcp (Command.Query q) 1024 with ⟨r, sock⟩
  cases r with
  | error e => simp [execute, hs]
  | ok v =>
    rcases hr : receive sock.inp PkgType.Response with ⟨r2, inp1⟩
    cases r2 with
    | error e => simp [execute, hs, hr]
    | ok v2 =>
      rcases hd : decodeResultSet SizeLimit.Infinite inp1 with _ | ⟨rows, inp2⟩
      · simp [execute, hs, hr, hd]
      · simp [execute, hs, hr, hd]

/-- Any sequence of client operations leaves identity fields unchanged. -/
theorem runOps_preserves_fields (encSize : WireValue → Nat)
    (preprocess : ResultSet → DataSet) (ops : List ClientOp)
    (c : Connection) :
    (runOps encSize preprocess ops c).ip = c.ip ∧
    (runOps encSize preprocess ops c).port = c.port ∧
    (runOps encSize preprocess ops c).greeting = c.greeting ∧
    (runOps encSize preprocess ops c).user_data = c.user_data := by
  induction ops generalizing c with
  | nil => simp [runOps]
  | cons op ops ih =>
    cases op with
    | ping =>
      have h := ping_preserves_fields encSize c
      have h2 := ih ((ping encSize c).2)
      exact ⟨h2.1.trans h.1, (h2.2.1).trans h.2.1,
        (h2.2.2.1).trans h.2.2.1, (h2.2.2.2).trans h.2.2.2⟩
    | quit =>
      have h := quit_preserves_fields encSize c
      have h2 := ih ((quit encSize c).2)
      exact ⟨h2.1.trans h.1, (h2.2.1).trans h.2.1,
        (h2.2.2.1).trans h.2.2.1, (h2.2.2.2).trans h.2.2.2⟩
    | execute q =>
      have h := execute_preserves_fields encSize preprocess c q
      have h2 := ih ((execute encSize preprocess c q).2)
      exact ⟨h2.1.trans h.1, (h2.2.1).trans h.2.1,
        (h2.2.2.1).trans h.2.2.1, (h2.2.2.2).trans h.2.2.2⟩

/-- Claim C8: a `Connection` produced by a successful `connect` that decoded
greeting `g` answers `get_version` with `g.protocol_version`, `get_message`
with `g.message`, `get_ip` with `addr`, `get_port` with `port` and
`get_username` with `u`, and these five values are unchanged by any
subsequent sequence of `ping`, `quit` and `execute` calls. -/
theorem C8_accessors (encSize : WireValue → Nat)
    (preprocess : ResultSet → DataSet) (addr : String) (port : Nat)
    (u p : String) (sg gsz sa : Nat) (g : Greeting) (rest : List WireItem)
    (c : Connection) (hsg : sg ≤ 1024) (hgsz : gsz ≤ 1024) (hsa : sa ≤ 1024)
    (hip : ipv4_from_str addr = true)
    (hE1 : encSize (WireValue.pkg PkgType.Login) ≤ 1024)
    (hE2 : encSize (WireValue.login ⟨u, p⟩) ≤ 1024)
    (h : (connect encSize addr port u p true
        (⟨WireValue.pkg PkgType.Greet, sg⟩ :: ⟨WireValue.greeting g, gsz⟩ ::
          ⟨WireValue.pkg PkgType.AccGranted, sa⟩ :: rest)).1
      = Except.ok c) (ops : List ClientOp) :
    (runOps encSize preprocess ops c).get_version = g.protocol_version
    ∧ (runOps encSize preprocess ops c).get_message = g.message
    ∧ (runOps encSize preprocess ops c).get_ip = addr
    ∧ (runOps encSize preprocess ops c).get_port = port
    ∧ (runOps encSize preprocess ops c).get_username = u := by
  rw [connect_granted hip hsg hgsz hsa hE1 hE2] at h
  simp only [] at h
  have hc : c = ⟨addr, port, ⟨rest,
      [⟨WireValue.pkg PkgType.Login, encSize (WireValue.pkg PkgType.Login)⟩,
       ⟨WireValue.login ⟨u, p⟩, encSize (WireValue.login ⟨u, p⟩)⟩]⟩,
      g, ⟨u, p⟩⟩ := by
    cases h
    rfl
  subst hc
  have hpres := runOps_preserves_fields encSize preprocess ops
    ⟨addr, port, ⟨rest,
      [⟨WireValue.pkg PkgType.Login, encSize (WireValue.pkg PkgType.Login)⟩,
       ⟨WireValue.login ⟨u, p⟩, encSize (WireValue.login ⟨u, p⟩)⟩]⟩,
      g, ⟨u, p⟩⟩
  refine ⟨?_, ?_, ?_, ?_, ?_⟩ <;>
    simp [Connection.get_version, Connection.get_message, Connection.get_ip,
      Connection.get_port, Connection.get_username, hpres.1, hpres.2.1,
      hpres.2.2.1, hpres.2.2.2]

/-- Witness for C8 at a concrete granted handshake followed by a ping. -/
theorem C8_accessors_witness :
    (runOps (fun _ => 4) (fun r => ⟨r.rows⟩) [ClientOp.ping]
        ⟨"1.2.3.4", 4242, ⟨[],
          [⟨WireValue.pkg PkgType.Login, 4⟩,
           ⟨WireValue.login ⟨"alice", "pw"⟩, 4⟩]⟩, ⟨1, "hello"⟩,
          ⟨"alice", "pw"⟩⟩).get_version = 1
    ∧ (runOps (fun _ => 4) (fun r => ⟨r.rows⟩) [ClientOp.ping]
        ⟨"1.2.3.4", 4242, ⟨[],
          [⟨WireValue.pkg PkgType.Login, 4⟩,
           ⟨WireValue.login ⟨"alice", "pw"⟩, 4⟩]⟩, ⟨1, "hello"⟩,
          ⟨"alice", "pw"⟩⟩).get_message = "hello"
    ∧ (runOps (fun _ => 4) (fun r => ⟨r.rows⟩) [ClientOp.ping]
        ⟨"1.2.3.4", 4242, ⟨[],
          [⟨WireValue.pkg PkgType.Login, 4⟩,
           ⟨WireValue.login ⟨"alice", "pw"⟩, 4⟩]⟩, ⟨1, "hello"⟩,
          ⟨"alice", "pw"⟩⟩).get_ip = "1.2.3.4"
    ∧ (runOps (fun _ => 4) (fun r => ⟨r.rows⟩) [ClientOp.ping]
        ⟨"1.2.3.4", 4242, ⟨[],
          [⟨WireValue.pkg PkgType.Login, 4⟩,
           ⟨WireValue.login ⟨"alice", "pw"⟩, 4⟩]⟩, ⟨1, "hello"⟩,
          ⟨"alice", "pw"⟩⟩).get_port = 4242
    ∧ (runOps (fun _ => 4) (fun r => ⟨r.rows⟩) [ClientOp.ping]
        ⟨"1.2.3.4", 4242, ⟨[],
          [⟨WireValue.pkg PkgType.Login, 4⟩,
           ⟨WireValue.login ⟨"alice", "pw"⟩, 4⟩]⟩, ⟨1, "hello"⟩,
          ⟨"alice", "pw"⟩⟩).get_username = "alice" :=
  C8_accessors (fun _ => 4) (fun r => ⟨r.rows⟩) ("1.2.3.4") 4242 ("alice")
    ("pw") 4 10 4 ⟨1, "hello"⟩ []
    ⟨"1.2.3.4", 4242, ⟨[],
      [⟨WireValue.pkg PkgType.Login, 4⟩,
       ⟨WireValue.login ⟨"alice", "pw"⟩, 4⟩]⟩, ⟨1, "hello"⟩,
      ⟨"alice", "pw"⟩⟩ (by decide) (by decide) (by decide) (by decide)
    (by decide) (by decide) rfl [ClientOp.ping]

end Uosql
